import Mathlib

/-!
Shallow embedding of the lab-report CRUD backend
(`src/FlaskBackend/Formatting/app.py`).

The sqlite database is modelled as three lists of rows (tables
`lab_reports`, `questions`, `subtopics`), kept in insertion order, which
is the order a sqlite full-table scan returns rows in here (rowid order).
A JSON request body is modelled as an association list of string fields
(`Body`); `none` stands for an absent/null body.  Each Flask handler
becomes a pure function from the database and the request data to an
`HOut` value carrying the HTTP status code, the new database, the list of
Socket.IO events emitted (`socketio.emit(name, ..., room=...)`), and the
returned JSON payload where a claim needs it.  Values produced by
`uuid.uuid4()` and `CURRENT_TIMESTAMP` enter as explicit parameters
(`report_id`/`question_id`/`subtopic_id` and `now`).  `ORDER BY
created_at` is modelled by a stable merge sort on the `created_at`
field.  A PRIMARY KEY collision on INSERT raises `sqlite3.Error`, which
every handler catches and turns into HTTP 500, as does a `KeyError` from
reading an absent required field out of `request.json`.
-/

namespace LabFormatter

/-- A row of the `lab_reports` table. -/
structure ReportRow where
  id : String
  number : String
  statement : String
  authors : String
  created_by : String
  created_at : Nat
deriving Repr, DecidableEq

/-- A row of the `questions` table. -/
structure QuestionRow where
  id : String
  lab_report_id : String
  number : String
  statement : String
  created_at : Nat
deriving Repr, DecidableEq

/-- A row of the `subtopics` table. -/
structure SubtopicRow where
  id : String
  question_id : String
  title : String
  procedures : String
  explanation : String
  citations : String
  image_url : String
  figure_description : String
  created_at : Nat
deriving Repr, DecidableEq

/-- The three document tables of the sqlite database, each in insertion
(rowid) order.  The `users` table plays no role in the claims. -/
structure DB where
  lab_reports : List ReportRow
  questions : List QuestionRow
  subtopics : List SubtopicRow
deriving Repr, DecidableEq

/-- A Socket.IO event: `socketio.emit(name, payload, room=room)`. -/
structure Event where
  name : String
  room : String
deriving Repr, DecidableEq

/-- A JSON object body: fields as an association list. -/
abbrev Body := List (String × String)

/-- `data[k]` / `data.get(k)`: first binding of field `k`, if any. -/
def bodyGet? (b : Body) (k : String) : Option String :=
  (b.find? (fun p => p.1 == k)).map (fun p => p.2)

/-- `k in data`. -/
def bodyHas (b : Body) (k : String) : Bool :=
  (bodyGet? b k).isSome

/-- `data.get(k, d)`. -/
def bodyGetD (b : Body) (k d : String) : String :=
  (bodyGet? b k).getD d

/-- `ORDER BY created_at` over a list of question rows in rowid order:
sqlite's sort, modelled as a stable merge sort on the timestamp. -/
def sortQuestions (l : List QuestionRow) : List QuestionRow :=
  l.mergeSort (fun a b => a.created_at ≤ b.created_at)

/-- `ORDER BY created_at` over a list of subtopic rows. -/
def sortSubtopics (l : List SubtopicRow) : List SubtopicRow :=
  l.mergeSort (fun a b => a.created_at ≤ b.created_at)

/-- A question dict as returned to clients: the row plus a `subtopics`
key. -/
structure QuestionDoc where
  question : QuestionRow
  subtopics : List SubtopicRow
deriving Repr, DecidableEq

/-- A report dict as returned to clients: the row plus a `questions`
key holding nested question docs. -/
structure ReportDoc where
  report : ReportRow
  questions : List QuestionDoc
deriving Repr, DecidableEq

/-- Outcome of one handler call: HTTP status, the database after the
call, the Socket.IO events emitted, and whichever JSON payload shape the
handler returns on success. -/
structure HOut where
  status : Nat
  db : DB
  events : List Event := []
  reportDoc : Option ReportDoc := none
  questionDoc : Option QuestionDoc := none
  subtopicRow : Option SubtopicRow := none
deriving Repr, DecidableEq

/-- The nested document built by `get_lab_report` (and re-built by
`update_lab_report`): the report row, its questions ordered by
`created_at`, each with its subtopics ordered by `created_at`. -/
def buildReportDoc (db : DB) (r : ReportRow) : ReportDoc :=
  { report := r
    questions :=
      (sortQuestions (db.questions.filter (fun q => q.lab_report_id == r.id))).map
        (fun q =>
          { question := q
            subtopics := sortSubtopics (db.subtopics.filter (fun s => s.question_id == q.id)) }) }

/-- `GET /api/lab-reports/<report_id>` (app.py lines 361-402). -/
def get_lab_report (db : DB) (report_id : String) : HOut :=
  match db.lab_reports.find? (fun r => r.id == report_id) with
  | none => { status := 404, db := db }
  | some r => { status := 200, db := db, reportDoc := some (buildReportDoc db r) }

/-- The report row built by the INSERT of `create_lab_report`. -/
def newReportRow (d : Body) (current_user report_id : String) (now : Nat) : ReportRow :=
  { id := report_id, number := bodyGetD d "number" "",
    statement := bodyGetD d "statement" "", authors := bodyGetD d "authors" "",
    created_by := current_user, created_at := now }

/-- Append a row to the `lab_reports` table. -/
def insertReport (db : DB) (row : ReportRow) : DB :=
  { db with lab_reports := db.lab_reports ++ [row] }

/-- `POST /api/lab-reports` (app.py lines 298-359).  `current_user` comes
from the verified JWT, `report_id` from `uuid.uuid4()`, `now` from
`CURRENT_TIMESTAMP`.  Emits no Socket.IO event.  A `None` or empty JSON
body is falsy (`if not data`), 400; an id collision on INSERT raises
`sqlite3.Error`, 500. -/
def create_lab_report (db : DB) (body : Option Body) (current_user : String)
    (report_id : String) (now : Nat) : HOut :=
  match body with
  | none => { status := 400, db := db }
  | some d =>
    if d.isEmpty then { status := 400, db := db }
    else if !bodyHas d "number" || !bodyHas d "statement" || !bodyHas d "authors" then
      { status := 400, db := db }
    else if db.lab_reports.any (fun r => r.id == report_id) then
      { status := 500, db := db }
    else
      match (insertReport db (newReportRow d current_user report_id now)).lab_reports.find?
          (fun r => r.id == report_id) with
      | some r =>
          { status := 201, db := insertReport db (newReportRow d current_user report_id now),
            reportDoc := some { report := r, questions := [] } }
      | none =>
          { status := 500, db := insertReport db (newReportRow d current_user report_id now) }

/-- The UPDATE statement of `update_lab_report`: overwrite `number`,
`statement` and `authors` of every row whose id matches. -/
def applyReportUpdate (db : DB) (report_id : String) (d : Body) : DB :=
  { db with lab_reports := db.lab_reports.map (fun r =>
      if r.id == report_id then
        { r with
          number := bodyGetD d "number" ""
          statement := bodyGetD d "statement" ""
          authors := bodyGetD d "authors" "" }
      else r) }

/-- `PUT /api/lab-reports/<report_id>` (app.py lines 404-481).  Checks
the body and the three required fields before looking the report up. -/
def update_lab_report (db : DB) (report_id : String) (body : Option Body) : HOut :=
  match body with
  | none => { status := 400, db := db }
  | some d =>
    if d.isEmpty then { status := 400, db := db }
    else if !bodyHas d "number" then { status := 400, db := db }
    else if !bodyHas d "statement" then { status := 400, db := db }
    else if !bodyHas d "authors" then { status := 400, db := db }
    else if !db.lab_reports.any (fun r => r.id == report_id) then
      { status := 404, db := db }
    else
      match (applyReportUpdate db report_id d).lab_reports.find?
          (fun r => r.id == report_id) with
      | none => { status := 500, db := applyReportUpdate db report_id d }
      | some r =>
          { status := 200, db := applyReportUpdate db report_id d,
            reportDoc := some (buildReportDoc (applyReportUpdate db report_id d) r),
            events := [{ name := "lab_report_updated", room := report_id }] }

/-- The subquery `SELECT id FROM questions WHERE lab_report_id = ?`. -/
def reportQuestionIds (db : DB) (report_id : String) : List String :=
  (db.questions.filter (fun q => q.lab_report_id == report_id)).map (fun q => q.id)

/-- The three DELETE statements of `delete_lab_report`: subtopics of the
report's questions, then the questions, then the report. -/
def cascadeDelete (db : DB) (report_id : String) : DB :=
  { lab_reports := db.lab_reports.filter (fun r => !(r.id == report_id))
    questions := db.questions.filter (fun q => !(q.lab_report_id == report_id))
    subtopics := db.subtopics.filter
      (fun s => !(reportQuestionIds db report_id).contains s.question_id) }

/-- `DELETE /api/lab-reports/<report_id>` (app.py lines 483-528). -/
def delete_lab_report (db : DB) (report_id : String) : HOut :=
  if !db.lab_reports.any (fun r => r.id == report_id) then
    { status := 404, db := db }
  else
    { status := 200, db := cascadeDelete db report_id,
      events := [{ name := "lab_report_deleted", room := report_id }] }

/-- `delete_lab_report` with an injected `sqlite3.Error` (`failAt = some k`
for the k-th of the three DELETE statements or the commit).  The DELETEs
run inside the implicit sqlite3 transaction that `conn.commit()` ends; an
exception reaches the handler's except-branch, which closes the
connection without committing, rolling the transaction back to the
pre-call store. -/
def delete_lab_report_fallible (db : DB) (report_id : String)
    (failAt : Option Nat) : HOut :=
  if !db.lab_reports.any (fun r => r.id == report_id) then
    { status := 404, db := db }
  else
    match failAt with
    | some _ => { status := 500, db := db }
    | none =>
        { status := 200, db := cascadeDelete db report_id,
          events := [{ name := "lab_report_deleted", room := report_id }] }

/-- The question row built by the INSERT of `add_question`. -/
def newQuestionRow (d : Body) (report_id question_id : String) (now : Nat) : QuestionRow :=
  { id := question_id, lab_report_id := report_id,
    number := bodyGetD d "number" "", statement := bodyGetD d "statement" "",
    created_at := now }

/-- Append a row to the `questions` table. -/
def insertQuestion (db : DB) (row : QuestionRow) : DB :=
  { db with questions := db.questions ++ [row] }

/-- `POST /api/lab-reports/<report_id>/questions` (app.py lines 530-605).
Checks the body and required fields, then the report, then inserts. -/
def add_question (db : DB) (report_id : String) (body : Option Body)
    (question_id : String) (now : Nat) : HOut :=
  match body with
  | none => { status := 400, db := db }
  | some d =>
    if d.isEmpty then { status := 400, db := db }
    else if !bodyHas d "number" || !bodyHas d "statement" then { status := 400, db := db }
    else if !db.lab_reports.any (fun r => r.id == report_id) then
      { status := 404, db := db }
    else if db.questions.any (fun q => q.id == question_id) then
      { status := 500, db := db }
    else
      match (insertQuestion db (newQuestionRow d report_id question_id now)).questions.find?
          (fun q => q.id == question_id) with
      | some q =>
          { status := 201, db := insertQuestion db (newQuestionRow d report_id question_id now),
            questionDoc := some { question := q, subtopics := [] },
            events := [{ name := "question_added", room := report_id }] }
      | none =>
          { status := 500, db := insertQuestion db (newQuestionRow d report_id question_id now) }

/-- The JOIN check shared by `add_subtopic` and `update_question`:
`SELECT q.id FROM questions q JOIN lab_reports lr ON lr.id =
q.lab_report_id WHERE q.id = ? AND lr.id = ?` returns a row. -/
def questionInReport (db : DB) (report_id question_id : String) : Bool :=
  db.questions.any (fun q =>
    db.lab_reports.any (fun r =>
      r.id == q.lab_report_id && q.id == question_id && r.id == report_id))

/-- The three-table JOIN check of `update_subtopic`: a subtopics row with
id `subtopic_id` whose question is `question_id` and whose question's
report is `report_id`. -/
def subtopicAncestryOk (db : DB) (report_id question_id subtopic_id : String) : Bool :=
  db.subtopics.any (fun s =>
    db.questions.any (fun q =>
      db.lab_reports.any (fun r =>
        q.id == s.question_id && r.id == q.lab_report_id &&
        s.id == subtopic_id && q.id == question_id && r.id == report_id)))

/-- The subtopic row built by the INSERT of `add_subtopic`: the five
optional columns come from `data.get(field, '')`. -/
def newSubtopicRow (d : Body) (question_id subtopic_id : String) (now : Nat) : SubtopicRow :=
  { id := subtopic_id, question_id := question_id,
    title := bodyGetD d "title" "",
    procedures := bodyGetD d "procedures" "",
    explanation := bodyGetD d "explanation" "",
    citations := bodyGetD d "citations" "",
    image_url := bodyGetD d "image_url" "",
    figure_description := bodyGetD d "figure_description" "",
    created_at := now }

/-- Append a row to the `subtopics` table. -/
def insertSubtopic (db : DB) (row : SubtopicRow) : DB :=
  { db with subtopics := db.subtopics ++ [row] }

/-- `POST .../questions/<question_id>/subtopics` (app.py lines 607-675).
The ancestry JOIN runs before any field of `data` is read; a missing
`title` (or a `None` body) then raises and is answered 500. -/
def add_subtopic (db : DB) (report_id question_id : String) (body : Option Body)
    (subtopic_id : String) (now : Nat) : HOut :=
  if !questionInReport db report_id question_id then { status := 404, db := db }
  else
    match body with
    | none => { status := 500, db := db }
    | some d =>
        if !bodyHas d "title" then { status := 500, db := db }
        else if db.subtopics.any (fun s => s.id == subtopic_id) then
          { status := 500, db := db }
        else
          match (insertSubtopic db (newSubtopicRow d question_id subtopic_id now)).subtopics.find?
              (fun s => s.id == subtopic_id) with
          | some s =>
              { status := 201,
                db := insertSubtopic db (newSubtopicRow d question_id subtopic_id now),
                subtopicRow := some s,
                events := [{ name := "subtopic_added", room := report_id }] }
          | none =>
              { status := 500,
                db := insertSubtopic db (newSubtopicRow d question_id subtopic_id now) }

/-- The UPDATE statement of `update_subtopic`: overwrite every content
column of the matching row, optional ones from `data.get(field, '')`. -/
def applySubtopicUpdate (db : DB) (subtopic_id : String) (d : Body) : DB :=
  { db with subtopics := db.subtopics.map (fun s =>
      if s.id == subtopic_id then
        { s with
          title := bodyGetD d "title" ""
          procedures := bodyGetD d "procedures" ""
          explanation := bodyGetD d "explanation" ""
          citations := bodyGetD d "citations" ""
          image_url := bodyGetD d "image_url" ""
          figure_description := bodyGetD d "figure_description" "" }
      else s) }

/-- `PUT .../subtopics/<subtopic_id>` (app.py lines 677-745).  The
three-level JOIN runs first; the UPDATE then overwrites every column,
optional ones from `data.get(field, '')`. -/
def update_subtopic (db : DB) (report_id question_id subtopic_id : String)
    (body : Option Body) : HOut :=
  if !subtopicAncestryOk db report_id question_id subtopic_id then
    { status := 404, db := db }
  else
    match body with
    | none => { status := 500, db := db }
    | some d =>
        if !bodyHas d "title" then { status := 500, db := db }
        else
          match (applySubtopicUpdate db subtopic_id d).subtopics.find?
              (fun s => s.id == subtopic_id) with
          | some s =>
              { status := 200, db := applySubtopicUpdate db subtopic_id d,
                subtopicRow := some s,
                events := [{ name := "subtopic_updated", room := report_id }] }
          | none => { status := 500, db := applySubtopicUpdate db subtopic_id d }

/-- The UPDATE statement of `update_question`: overwrite `number` and
`statement` of the matching row. -/
def applyQuestionUpdate (db : DB) (question_id : String) (d : Body) : DB :=
  { db with questions := db.questions.map (fun q =>
      if q.id == question_id then
        { q with
          number := bodyGetD d "number" ""
          statement := bodyGetD d "statement" "" }
      else q) }

/-- `PUT .../questions/<question_id>` (app.py lines 747-806).  The JOIN
check runs first; the UPDATE reads `data['number']` and
`data['statement']`, raising (500) when absent.  The returned doc's
subtopics use a plain filter: that SELECT has no ORDER BY. -/
def update_question (db : DB) (report_id question_id : String)
    (body : Option Body) : HOut :=
  if !questionInReport db report_id question_id then { status := 404, db := db }
  else
    match body with
    | none => { status := 500, db := db }
    | some d =>
        if !bodyHas d "number" || !bodyHas d "statement" then { status := 500, db := db }
        else
          match (applyQuestionUpdate db question_id d).questions.find?
              (fun q => q.id == question_id) with
          | some q =>
              { status := 200, db := applyQuestionUpdate db question_id d,
                questionDoc := some
                  { question := q
                    subtopics := (applyQuestionUpdate db question_id d).subtopics.filter
                      (fun s => s.question_id == q.id) },
                events := [{ name := "question_updated", room := report_id }] }
          | none => { status := 500, db := applyQuestionUpdate db question_id d }

/-- Which of a call's events a Socket.IO client sees: those whose room it
has joined. -/
def delivered (rooms : List String) (evs : List Event) : List Event :=
  evs.filter (fun e => rooms.contains e.room)

/-! Concrete rows and stores used to exercise the handlers on closed
inputs. -/

/-- A report row with id `r1`. -/
def sampleReport : ReportRow :=
  { id := "r1", number := "L1", statement := "S", authors := "A",
    created_by := "admin", created_at := 1 }

/-- A second report row, id `r2`. -/
def otherReport : ReportRow :=
  { id := "r2", number := "L2", statement := "S2", authors := "A",
    created_by := "admin", created_at := 1 }

/-- A question under `r1`. -/
def sampleQuestion : QuestionRow :=
  { id := "q1", lab_report_id := "r1", number := "Q1", statement := "QS",
    created_at := 2 }

/-- A question under `r2`. -/
def strayQuestion : QuestionRow :=
  { id := "q2", lab_report_id := "r2", number := "Q2", statement := "QS2",
    created_at := 2 }

/-- A subtopic under `q1`, with a non-empty `procedures` value. -/
def sampleSubtopic : SubtopicRow :=
  { id := "s1", question_id := "q1", title := "T1", procedures := "P",
    explanation := "E", citations := "", image_url := "",
    figure_description := "", created_at := 3 }

/-- One report, one question, one subtopic. -/
def sampleDB : DB :=
  { lab_reports := [sampleReport], questions := [sampleQuestion],
    subtopics := [sampleSubtopic] }

/-- Two reports with a question each; the subtopic sits under `q1` of
`r1`, while `q2` belongs to `r2`. -/
def crossDB : DB :=
  { lab_reports := [sampleReport, otherReport],
    questions := [sampleQuestion, strayQuestion],
    subtopics := [sampleSubtopic] }

/-- The empty store. -/
def emptyDB : DB := { lab_reports := [], questions := [], subtopics := [] }

/-- A request body with the three report fields. -/
def reportBody : Body := [("number", "L9"), ("statement", "S9"), ("authors", "A9")]

/-- A request body with the two question fields. -/
def questionBody : Body := [("number", "Q9"), ("statement", "QS9")]

/-- A request body with only the required subtopic field `title`. -/
def titleBody : Body := [("title", "T9")]

/-! Theorems. -/

/-- Claim C1: for every report R in the store, `delete_lab_report`
succeeds, removes R together with every question whose `lab_report_id`
is R and every subtopic of those questions; a subsequent
`get_lab_report` answers 404 (NotFound), and none of those question or
subtopic rows remain. -/
theorem C1_delete_report_cascades (db : DB) (rid : String)
    (hex : ∃ r ∈ db.lab_reports, r.id = rid) :
    (delete_lab_report db rid).status = 200 ∧
    (get_lab_report (delete_lab_report db rid).db rid).status = 404 ∧
    (∀ q ∈ db.questions, q.lab_report_id = rid →
      q ∉ (delete_lab_report db rid).db.questions) ∧
    (∀ q ∈ db.questions, ∀ s ∈ db.subtopics, q.lab_report_id = rid →
      s.question_id = q.id → s ∉ (delete_lab_report db rid).db.subtopics) := by
  obtain ⟨r, hr, hrid⟩ := hex
  have hany : db.lab_reports.any (fun r => r.id == rid) = true :=
    List.any_eq_true.mpr ⟨r, hr, by simp [hrid]⟩
  have hdel : delete_lab_report db rid =
      { status := 200, db := cascadeDelete db rid,
        events := [{ name := "lab_report_deleted", room := rid }] } := by
    simp [delete_lab_report, hany]
  refine ⟨by rw [hdel], ?_, ?_, ?_⟩
  · rw [hdel]
    have hfind : (cascadeDelete db rid).lab_reports.find?
        (fun x => x.id == rid) = none := by
      refine List.find?_eq_none.mpr ?_
      intro x hx
      have := (List.mem_filter.mp hx).2
      simpa using this
    simp [get_lab_report, hfind]
  · intro q hq hqrid hq'
    rw [hdel] at hq'
    have := (List.mem_filter.mp hq').2
    simp [hqrid] at this
  · intro q hq s hs hqrid hsq hs'
    rw [hdel] at hs'
    have hmem := (List.mem_filter.mp hs').2
    have hqmem : q.id ∈ reportQuestionIds db rid :=
      List.mem_map.mpr ⟨q, List.mem_filter.mpr ⟨hq, by simp [hqrid]⟩, rfl⟩
    rw [hsq] at hmem
    simp only [cascadeDelete, Bool.not_eq_true'] at hmem
    rw [List.contains_eq_any_beq] at hmem
    have : (reportQuestionIds db rid).any (fun x => q.id == x) = true :=
      List.any_eq_true.mpr ⟨q.id, hqmem, by simp⟩
    rw [this] at hmem
    exact absurd hmem (by simp)

/-- Witness for C1 at the one-report/one-question/one-subtopic store. -/
theorem C1_delete_report_cascades_witness :
    (delete_lab_report sampleDB "r1").status = 200 ∧
    (get_lab_report (delete_lab_report sampleDB "r1").db "r1").status = 404 ∧
    (∀ q ∈ sampleDB.questions, q.lab_report_id = "r1" →
      q ∉ (delete_lab_report sampleDB "r1").db.questions) ∧
    (∀ q ∈ sampleDB.questions, ∀ s ∈ sampleDB.subtopics, q.lab_report_id = "r1" →
      s.question_id = q.id → s ∉ (delete_lab_report sampleDB "r1").db.subtopics) :=
  C1_delete_report_cascades sampleDB "r1" ⟨sampleReport, by decide, by decide⟩

/-- `create_lab_report` emits no Socket.IO event on any path. -/
theorem create_lab_report_events (db : DB) (b : Option Body) (u nid : String) (now : Nat) :
    (create_lab_report db b u nid now).events = [] := by
  unfold create_lab_report
  repeat' split
  all_goals rfl

/-- Events of `update_lab_report`: exactly one on success, else none. -/
theorem update_lab_report_eventsSpec (db : DB) (rid : String) (b : Option Body) :
    ((update_lab_report db rid b).status = 200 →
      (update_lab_report db rid b).events = [{ name := "lab_report_updated", room := rid }]) ∧
    ((update_lab_report db rid b).events = [] ∨
      (update_lab_report db rid b).events = [{ name := "lab_report_updated", room := rid }]) := by
  unfold update_lab_report
  repeat' split
  all_goals simp

/-- Events of `delete_lab_report`: exactly one on success, else none. -/
theorem delete_lab_report_eventsSpec (db : DB) (rid : String) :
    ((delete_lab_report db rid).status = 200 →
      (delete_lab_report db rid).events = [{ name := "lab_report_deleted", room := rid }]) ∧
    ((delete_lab_report db rid).events = [] ∨
      (delete_lab_report db rid).events = [{ name := "lab_report_deleted", room := rid }]) := by
  unfold delete_lab_report
  repeat' split
  all_goals simp

/-- Events of `add_question`: exactly one on success, else none. -/
theorem add_question_eventsSpec (db : DB) (rid : String) (b : Option Body) (nqid : String) (now : Nat) :
    ((add_question db rid b nqid now).status = 201 →
      (add_question db rid b nqid now).events = [{ name := "question_added", room := rid }]) ∧
    ((add_question db rid b nqid now).events = [] ∨
      (add_question db rid b nqid now).events = [{ name := "question_added", room := rid }]) := by
  unfold add_question
  repeat' split
  all_goals simp

/-- Events of `update_question`: exactly one on success, else none. -/
theorem update_question_eventsSpec (db : DB) (rid qid : String) (b : Option Body) :
    ((update_question db rid qid b).status = 200 →
      (update_question db rid qid b).events = [{ name := "question_updated", room := rid }]) ∧
    ((update_question db rid qid b).events = [] ∨
      (update_question db rid qid b).events = [{ name := "question_updated", room := rid }]) := by
  unfold update_question
  repeat' split
  all_goals simp

/-- Events of `add_subtopic`: exactly one on success, else none. -/
theorem add_subtopic_eventsSpec (db : DB) (rid qid : String) (b : Option Body) (nsid : String) (now : Nat) :
    ((add_subtopic db rid qid b nsid now).status = 201 →
      (add_subtopic db rid qid b nsid now).events = [{ name := "subtopic_added", room := rid }]) ∧
    ((add_subtopic db rid qid b nsid now).events = [] ∨
      (add_subtopic db rid qid b nsid now).events = [{ name := "subtopic_added", room := rid }]) := by
  unfold add_subtopic
  repeat' split
  all_goals simp

/-- Events of `update_subtopic`: exactly one on success, else none. -/
theorem update_subtopic_eventsSpec (db : DB) (rid qid sid : String) (b : Option Body) :
    ((update_subtopic db rid qid sid b).status = 200 →
      (update_subtopic db rid qid sid b).events = [{ name := "subtopic_updated", room := rid }]) ∧
    ((update_subtopic db rid qid sid b).events = [] ∨
      (update_subtopic db rid qid sid b).events = [{ name := "subtopic_updated", room := rid }]) := by
  unfold update_subtopic
  repeat' split
  all_goals simp

/-- A client subscribed to rooms not containing an event list's common
room receives nothing. -/
theorem delivered_eq_nil (rooms : List String) (rid : String) (evs : List Event)
    (hevs : ∀ e ∈ evs, e.room = rid) (h : rooms.contains rid = false) :
    delivered rooms evs = [] := by
  unfold delivered
  refine List.filter_eq_nil_iff.mpr ?_
  intro e he
  rw [hevs e he, h]
  simp

/-- Claim C2 counterexample: `create_lab_report` succeeds (201) on the
empty store yet emits no Change Notifier event at all, so not every
successful mutation emits exactly one event. -/
theorem C2_counterexample :
    (create_lab_report emptyDB (some reportBody) "admin" "r1" 0).status = 201 ∧
    (create_lab_report emptyDB (some reportBody) "admin" "r1" 0).events.length = 0 ∧
    (create_lab_report emptyDB (some reportBody) "admin" "r1" 0).events.length ≠ 1 := by
  decide

/-- Claim C2 as amended: each of the six mutations other than
createReport (updateReport, deleteReport, addQuestion, updateQuestion,
addSubtopic, updateSubtopic), whenever it succeeds, emits exactly one
event, whose room is the report's identifier; a subscriber to other
topics receives nothing from any of the seven operations, successful or
not; createReport emits no event at all. -/
theorem C2_corrected_one_event_per_mutation
    (db : DB) (rid qid sid u nid nqid nsid : String)
    (br bq bu bs bv : Option Body) (now : Nat) (rooms : List String)
    (hrooms : rooms.contains rid = false) :
    (create_lab_report db br u nid now).events = [] ∧
    ((update_lab_report db rid br).status = 200 →
      (update_lab_report db rid br).events.map Event.room = [rid]) ∧
    ((delete_lab_report db rid).status = 200 →
      (delete_lab_report db rid).events.map Event.room = [rid]) ∧
    ((add_question db rid bq nqid now).status = 201 →
      (add_question db rid bq nqid now).events.map Event.room = [rid]) ∧
    ((update_question db rid qid bu).status = 200 →
      (update_question db rid qid bu).events.map Event.room = [rid]) ∧
    ((add_subtopic db rid qid bs nsid now).status = 201 →
      (add_subtopic db rid qid bs nsid now).events.map Event.room = [rid]) ∧
    ((update_subtopic db rid qid sid bv).status = 200 →
      (update_subtopic db rid qid sid bv).events.map Event.room = [rid]) ∧
    delivered rooms (create_lab_report db br u nid now).events = [] ∧
    delivered rooms (update_lab_report db rid br).events = [] ∧
    delivered rooms (delete_lab_report db rid).events = [] ∧
    delivered rooms (add_question db rid bq nqid now).events = [] ∧
    delivered rooms (update_question db rid qid bu).events = [] ∧
    delivered rooms (add_subtopic db rid qid bs nsid now).events = [] ∧
    delivered rooms (update_subtopic db rid qid sid bv).events = [] := by
  have s1 := update_lab_report_eventsSpec db rid br
  have s2 := delete_lab_report_eventsSpec db rid
  have s3 := add_question_eventsSpec db rid bq nqid now
  have s4 := update_question_eventsSpec db rid qid bu
  have s5 := add_subtopic_eventsSpec db rid qid bs nsid now
  have s6 := update_subtopic_eventsSpec db rid qid sid bv
  have hmem : rid ∉ rooms := by simpa using hrooms
  refine ⟨create_lab_report_events db br u nid now,
    fun h => by simp [s1.1 h], fun h => by simp [s2.1 h], fun h => by simp [s3.1 h],
    fun h => by simp [s4.1 h], fun h => by simp [s5.1 h], fun h => by simp [s6.1 h],
    ?_, ?_, ?_, ?_, ?_, ?_, ?_⟩
  · simp [create_lab_report_events db br u nid now, delivered]
  · rcases s1.2 with h | h <;> simp [h, delivered, hmem]
  · rcases s2.2 with h | h <;> simp [h, delivered, hmem]
  · rcases s3.2 with h | h <;> simp [h, delivered, hmem]
  · rcases s4.2 with h | h <;> simp [h, delivered, hmem]
  · rcases s5.2 with h | h <;> simp [h, delivered, hmem]
  · rcases s6.2 with h | h <;> simp [h, delivered, hmem]

/-- Witness for the amended C2: on the sample store all six mutations in
fact succeed, each emits one event on room `r1`, and a client in room
`r2` receives nothing from any of the seven operations. -/
theorem C2_corrected_witness :
    (create_lab_report sampleDB (some reportBody) "admin" "r9" 9).events = [] ∧
    (update_lab_report sampleDB "r1" (some reportBody)).events.map Event.room = ["r1"] ∧
    (delete_lab_report sampleDB "r1").events.map Event.room = ["r1"] ∧
    (add_question sampleDB "r1" (some questionBody) "q9" 9).events.map Event.room = ["r1"] ∧
    (update_question sampleDB "r1" "q1" (some questionBody)).events.map Event.room = ["r1"] ∧
    (add_subtopic sampleDB "r1" "q1" (some titleBody) "s9" 9).events.map Event.room = ["r1"] ∧
    (update_subtopic sampleDB "r1" "q1" "s1" (some titleBody)).events.map Event.room = ["r1"] ∧
    delivered ["r2"] (create_lab_report sampleDB (some reportBody) "admin" "r9" 9).events = [] ∧
    delivered ["r2"] (update_lab_report sampleDB "r1" (some reportBody)).events = [] ∧
    delivered ["r2"] (delete_lab_report sampleDB "r1").events = [] ∧
    delivered ["r2"] (add_question sampleDB "r1" (some questionBody) "q9" 9).events = [] ∧
    delivered ["r2"] (update_question sampleDB "r1" "q1" (some questionBody)).events = [] ∧
    delivered ["r2"] (add_subtopic sampleDB "r1" "q1" (some titleBody) "s9" 9).events = [] ∧
    delivered ["r2"] (update_subtopic sampleDB "r1" "q1" "s1" (some titleBody)).events = [] := by
  have h := C2_corrected_one_event_per_mutation sampleDB "r1" "q1" "s1" "admin" "r9" "q9" "s9"
    (some reportBody) (some questionBody) (some questionBody) (some titleBody) (some titleBody)
    9 ["r2"] (by decide)
  exact ⟨h.1, h.2.1 (by decide), h.2.2.1 (by decide), h.2.2.2.1 (by decide),
    h.2.2.2.2.1 (by decide), h.2.2.2.2.2.1 (by decide), h.2.2.2.2.2.2.1 (by decide),
    h.2.2.2.2.2.2.2⟩

/-- Claim C3 counterexample: with no report `r1` in the store and a body
missing every required field, `update_lab_report` answers 400
(ValidationError), not 404 (NotFound) — field presence is checked before
the ancestor. -/
theorem C3_counterexample :
    emptyDB.lab_reports.find? (fun r => r.id == "r1") = none ∧
    (update_lab_report emptyDB "r1" (some [("x", "y")])).status = 400 ∧
    (update_lab_report emptyDB "r1" (some [("x", "y")])).status ≠ 404 := by
  decide

/-- Claim C3 as amended: in `update_lab_report` and `add_question` the
required-field checks run before the ancestor lookup, so a missing
required field always yields 400, even when the named report does not
exist; in `add_subtopic`, `update_question` and `update_subtopic` the
ancestor chain is checked before any field access, so a broken ancestry
yields 404 regardless of the body. -/
theorem C3_corrected_validation_order
    (db : DB) (rid qid sid nqid nsid : String) (d : Body) (b : Option Body) (now : Nat)
    (hnum : bodyHas d "number" = false)
    (hq : questionInReport db rid qid = false)
    (hs : subtopicAncestryOk db rid qid sid = false) :
    ((update_lab_report db rid (some d)).status = 400 ∧
      (update_lab_report db rid (some d)).db = db) ∧
    ((add_question db rid (some d) nqid now).status = 400 ∧
      (add_question db rid (some d) nqid now).db = db) ∧
    ((add_subtopic db rid qid b nsid now).status = 404 ∧
      (add_subtopic db rid qid b nsid now).db = db) ∧
    ((update_question db rid qid b).status = 404 ∧
      (update_question db rid qid b).db = db) ∧
    ((update_subtopic db rid qid sid b).status = 404 ∧
      (update_subtopic db rid qid sid b).db = db) := by
  refine ⟨?_, ?_, ?_, ?_, ?_⟩
  · by_cases he : d.isEmpty <;> simp [update_lab_report, he, hnum]
  · by_cases he : d.isEmpty <;> simp [add_question, he, hnum]
  · simp [add_subtopic, hq]
  · simp [update_question, hq]
  · simp [update_subtopic, hs]

/-- Witness for the amended C3 on the empty store. -/
theorem C3_corrected_witness :
    ((update_lab_report emptyDB "r1" (some [("x", "y")])).status = 400 ∧
      (update_lab_report emptyDB "r1" (some [("x", "y")])).db = emptyDB) ∧
    ((add_question emptyDB "r1" (some [("x", "y")]) "q9" 9).status = 400 ∧
      (add_question emptyDB "r1" (some [("x", "y")]) "q9" 9).db = emptyDB) ∧
    ((add_subtopic emptyDB "r1" "q1" none "s9" 9).status = 404 ∧
      (add_subtopic emptyDB "r1" "q1" none "s9" 9).db = emptyDB) ∧
    ((update_question emptyDB "r1" "q1" none).status = 404 ∧
      (update_question emptyDB "r1" "q1" none).db = emptyDB) ∧
    ((update_subtopic emptyDB "r1" "q1" "s1" none).status = 404 ∧
      (update_subtopic emptyDB "r1" "q1" "s1" none).db = emptyDB) :=
  C3_corrected_validation_order emptyDB "r1" "q1" "s1" "q9" "s9" [("x", "y")] none 9
    (by decide) (by decide) (by decide)

/-- Claim C4: unless some subtopic row with the given id belongs to the
given question and that question belongs to the given report (the full
three-level ancestry, all rows present), `update_subtopic` answers 404,
leaves the store untouched and emits nothing. -/
theorem C4_update_subtopic_full_ancestry
    (db : DB) (rid qid sid : String) (b : Option Body)
    (h : ¬ ∃ s ∈ db.subtopics, ∃ q ∈ db.questions, ∃ r ∈ db.lab_reports,
      s.id = sid ∧ q.id = qid ∧ r.id = rid ∧ s.question_id = q.id ∧ q.lab_report_id = r.id) :
    (update_subtopic db rid qid sid b).status = 404 ∧
    (update_subtopic db rid qid sid b).db = db ∧
    (update_subtopic db rid qid sid b).events = [] := by
  have hok : subtopicAncestryOk db rid qid sid = false := by
    rw [← Bool.not_eq_true]
    intro hc
    apply h
    obtain ⟨s, hs, h2⟩ := List.any_eq_true.mp hc
    obtain ⟨q, hq, h3⟩ := List.any_eq_true.mp h2
    obtain ⟨r, hr, h4⟩ := List.any_eq_true.mp h3
    rw [Bool.and_eq_true, Bool.and_eq_true, Bool.and_eq_true, Bool.and_eq_true] at h4
    obtain ⟨⟨⟨⟨e1, e2⟩, e3⟩, e4⟩, e5⟩ := h4
    rw [beq_iff_eq] at e1 e2 e3 e4 e5
    exact ⟨s, hs, q, hq, r, hr, e3, e4, e5, e1.symm, e2.symm⟩
  simp [update_subtopic, hok]

/-- Witness for C4: subtopic `s1` exists (under `q1` of `r1`) and
question `q2` exists (under `r2`), yet updating `s1` via the pair
(`r1`, `q2`) is 404 and writes nothing. -/
theorem C4_update_subtopic_full_ancestry_witness :
    (update_subtopic crossDB "r1" "q2" "s1" (some titleBody)).status = 404 ∧
    (update_subtopic crossDB "r1" "q2" "s1" (some titleBody)).db = crossDB ∧
    (update_subtopic crossDB "r1" "q2" "s1" (some titleBody)).events = [] :=
  C4_update_subtopic_full_ancestry crossDB "r1" "q2" "s1" (some titleBody) (by decide)

/-- Claim C5: for an existing report, `delete_lab_report` with a fault
injected at any of its statements either commits the complete cascade
(subtopics, questions, report) or leaves the store exactly in its
pre-call state — never a partial cascade. -/
theorem C5_delete_report_all_or_nothing (db : DB) (rid : String) (failAt : Option Nat)
    (hex : ∃ r ∈ db.lab_reports, r.id = rid) :
    ((delete_lab_report_fallible db rid failAt).db = cascadeDelete db rid ∧
      (delete_lab_report_fallible db rid failAt).status = 200 ∧ failAt = none) ∨
    ((delete_lab_report_fallible db rid failAt).db = db ∧
      (delete_lab_report_fallible db rid failAt).status = 500 ∧ failAt ≠ none) := by
  obtain ⟨r, hr, hrid⟩ := hex
  have hany : db.lab_reports.any (fun r => r.id == rid) = true :=
    List.any_eq_true.mpr ⟨r, hr, by simp [hrid]⟩
  cases failAt <;> simp [delete_lab_report_fallible, hany]

/-- Witness for C5: a fault at the second DELETE leaves the sample store
unchanged and answers 500. -/
theorem C5_delete_report_all_or_nothing_witness :
    ((delete_lab_report_fallible sampleDB "r1" (some 1)).db = cascadeDelete sampleDB "r1" ∧
      (delete_lab_report_fallible sampleDB "r1" (some 1)).status = 200 ∧ (some 1 : Option Nat) = none) ∨
    ((delete_lab_report_fallible sampleDB "r1" (some 1)).db = sampleDB ∧
      (delete_lab_report_fallible sampleDB "r1" (some 1)).status = 500 ∧ (some 1 : Option Nat) ≠ none) :=
  C5_delete_report_all_or_nothing sampleDB "r1" (some 1) ⟨sampleReport, by decide, by decide⟩

/-- A stable sort of an already-sorted list with a maximal element
appended leaves the list unchanged. -/
theorem sortQuestions_append_last (l : List QuestionRow) (x : QuestionRow)
    (hsorted : l.Pairwise (fun a b => a.created_at ≤ b.created_at))
    (hle : ∀ a ∈ l, a.created_at ≤ x.created_at) :
    sortQuestions (l ++ [x]) = l ++ [x] := by
  unfold sortQuestions
  apply List.mergeSort_of_sorted
  rw [List.pairwise_append]
  refine ⟨?_, ?_, ?_⟩
  · exact hsorted.imp (fun h => by simpa using h)
  · simp
  · intro a ha b hb
    simp at hb
    subst hb
    simpa using hle a ha

/-- Claim C6: a valid `add_question` call returns 201 with the new
question carrying an empty subtopics list, and `get_lab_report` then
lists the report's questions as all previously created ones (in table
order) followed by the new question — the new question comes after
every earlier question of the report. -/
theorem C6_add_question_ordering
    (db : DB) (rid nqid : String) (d : Body) (now : Nat)
    (hsorted : db.questions.Pairwise (fun a b => a.created_at ≤ b.created_at))
    (hclock : ∀ q ∈ db.questions, q.created_at ≤ now)
    (hne : d.isEmpty = false)
    (hnum : bodyHas d "number" = true) (hstmt : bodyHas d "statement" = true)
    (hrep : db.lab_reports.any (fun r => r.id == rid) = true)
    (hfresh : db.questions.any (fun q => q.id == nqid) = false) :
    (add_question db rid (some d) nqid now).status = 201 ∧
    (add_question db rid (some d) nqid now).questionDoc =
      some { question := newQuestionRow d rid nqid now, subtopics := [] } ∧
    ∃ doc : ReportDoc,
      (get_lab_report (add_question db rid (some d) nqid now).db rid).reportDoc = some doc ∧
      doc.questions.map QuestionDoc.question =
        db.questions.filter (fun q => q.lab_report_id == rid) ++ [newQuestionRow d rid nqid now] := by
  have hfindq : (insertQuestion db (newQuestionRow d rid nqid now)).questions.find?
      (fun q => q.id == nqid) = some (newQuestionRow d rid nqid now) := by
    unfold insertQuestion
    rw [List.find?_append]
    have h1 : db.questions.find? (fun q => q.id == nqid) = none := by
      refine List.find?_eq_none.mpr ?_
      intro q hq
      have := List.any_eq_false.mp hfresh q hq
      simpa using this
    rw [h1]
    simp [newQuestionRow]
  have hadd : add_question db rid (some d) nqid now =
      { status := 201, db := insertQuestion db (newQuestionRow d rid nqid now),
        questionDoc := some { question := newQuestionRow d rid nqid now, subtopics := [] },
        events := [{ name := "question_added", room := rid }] } := by
    simp [add_question, hne, hnum, hstmt, hrep, hfresh, hfindq]
  refine ⟨by rw [hadd], by rw [hadd], ?_⟩
  rw [hadd]
  obtain ⟨r0, hr0mem, hr0⟩ := List.any_eq_true.mp hrep
  have hr0id : r0.id = rid := by simpa using hr0
  have hfindr : (insertQuestion db (newQuestionRow d rid nqid now)).lab_reports.find?
      (fun r => r.id == rid) = db.lab_reports.find? (fun r => r.id == rid) := rfl
  obtain ⟨r1, hr1⟩ : ∃ r1, db.lab_reports.find? (fun r => r.id == rid) = some r1 := by
    cases hf : db.lab_reports.find? (fun r => r.id == rid) with
    | none =>
        exact absurd (List.find?_eq_none.mp hf r0 hr0mem) (by simp [hr0id])
    | some r1 => exact ⟨r1, rfl⟩
  have hr1id : r1.id = rid := by
    have := List.find?_some hr1
    simpa using this
  refine ⟨buildReportDoc (insertQuestion db (newQuestionRow d rid nqid now)) r1, ?_, ?_⟩
  · simp [get_lab_report, hfindr, hr1]
  · unfold buildReportDoc insertQuestion
    rw [List.map_map]
    have hfilter : (db.questions ++ [newQuestionRow d rid nqid now]).filter
        (fun q => q.lab_report_id == r1.id) =
        db.questions.filter (fun q => q.lab_report_id == rid) ++ [newQuestionRow d rid nqid now] := by
      rw [List.filter_append, hr1id]
      simp [newQuestionRow]
    simp only [hfilter]
    rw [sortQuestions_append_last _ _ (hsorted.filter _) ?hle]
    · simp [Function.comp_def]
    case hle =>
      intro a ha
      exact hclock a (List.mem_of_mem_filter ha)

/-- Witness for C6 on the sample store. -/
theorem C6_add_question_ordering_witness :
    (add_question sampleDB "r1" (some questionBody) "q9" 9).status = 201 ∧
    (add_question sampleDB "r1" (some questionBody) "q9" 9).questionDoc =
      some { question := newQuestionRow questionBody "r1" "q9" 9, subtopics := [] } ∧
    ∃ doc : ReportDoc,
      (get_lab_report (add_question sampleDB "r1" (some questionBody) "q9" 9).db "r1").reportDoc =
        some doc ∧
      doc.questions.map QuestionDoc.question =
        sampleDB.questions.filter (fun q => q.lab_report_id == "r1") ++
          [newQuestionRow questionBody "r1" "q9" 9] :=
  C6_add_question_ordering sampleDB "r1" "q9" questionBody 9
    (by unfold sampleDB; simp) (by decide) (by decide) (by decide) (by decide) (by decide)
    (by decide)

/-- `data.get(k, v)` is `v` when `k` is not a field of the body. -/
theorem bodyGetD_of_not_has (d : Body) (k v : String) (h : bodyHas d k = false) :
    bodyGetD d k v = v := by
  unfold bodyGetD
  unfold bodyHas at h
  cases hg : bodyGet? d k with
  | none => rfl
  | some s => rw [hg] at h; simp at h

/-- Claim C7: when the question/report pair matches, `add_subtopic`
creates a row whose omitted optional fields (procedures, explanation,
citations, image_url, figure_description) are the empty string. -/
theorem C7_add_subtopic_optional_defaults
    (db : DB) (rid qid nsid : String) (d : Body) (now : Nat)
    (hq : questionInReport db rid qid = true)
    (htitle : bodyHas d "title" = true)
    (hfresh : db.subtopics.any (fun s => s.id == nsid) = false) :
    (add_subtopic db rid qid (some d) nsid now).status = 201 ∧
    (add_subtopic db rid qid (some d) nsid now).subtopicRow =
      some (newSubtopicRow d qid nsid now) ∧
    newSubtopicRow d qid nsid now ∈ (add_subtopic db rid qid (some d) nsid now).db.subtopics ∧
    (bodyHas d "procedures" = false → (newSubtopicRow d qid nsid now).procedures = "") ∧
    (bodyHas d "explanation" = false → (newSubtopicRow d qid nsid now).explanation = "") ∧
    (bodyHas d "citations" = false → (newSubtopicRow d qid nsid now).citations = "") ∧
    (bodyHas d "image_url" = false → (newSubtopicRow d qid nsid now).image_url = "") ∧
    (bodyHas d "figure_description" = false →
      (newSubtopicRow d qid nsid now).figure_description = "") := by
  have hfind : (insertSubtopic db (newSubtopicRow d qid nsid now)).subtopics.find?
      (fun s => s.id == nsid) = some (newSubtopicRow d qid nsid now) := by
    unfold insertSubtopic
    rw [List.find?_append]
    have h1 : db.subtopics.find? (fun s => s.id == nsid) = none := by
      refine List.find?_eq_none.mpr ?_
      intro s hs
      have := List.any_eq_false.mp hfresh s hs
      simpa using this
    rw [h1]
    simp [newSubtopicRow]
  have hadd : add_subtopic db rid qid (some d) nsid now =
      { status := 201, db := insertSubtopic db (newSubtopicRow d qid nsid now),
        subtopicRow := some (newSubtopicRow d qid nsid now),
        events := [{ name := "subtopic_added", room := rid }] } := by
    simp [add_subtopic, hq, htitle, hfresh, hfind]
  refine ⟨by rw [hadd], by rw [hadd], ?_, ?_, ?_, ?_, ?_, ?_⟩
  · rw [hadd]
    exact List.mem_append_right _ (List.mem_singleton.mpr rfl)
  all_goals intro h
  · exact bodyGetD_of_not_has d "procedures" "" h
  · exact bodyGetD_of_not_has d "explanation" "" h
  · exact bodyGetD_of_not_has d "citations" "" h
  · exact bodyGetD_of_not_has d "image_url" "" h
  · exact bodyGetD_of_not_has d "figure_description" "" h

/-- Witness for C7: a body carrying only `title` yields empty-string
optional fields. -/
theorem C7_add_subtopic_optional_defaults_witness :
    (add_subtopic sampleDB "r1" "q1" (some titleBody) "s9" 9).status = 201 ∧
    (add_subtopic sampleDB "r1" "q1" (some titleBody) "s9" 9).subtopicRow =
      some (newSubtopicRow titleBody "q1" "s9" 9) ∧
    newSubtopicRow titleBody "q1" "s9" 9 ∈
      (add_subtopic sampleDB "r1" "q1" (some titleBody) "s9" 9).db.subtopics ∧
    (bodyHas titleBody "procedures" = false →
      (newSubtopicRow titleBody "q1" "s9" 9).procedures = "") ∧
    (bodyHas titleBody "explanation" = false →
      (newSubtopicRow titleBody "q1" "s9" 9).explanation = "") ∧
    (bodyHas titleBody "citations" = false →
      (newSubtopicRow titleBody "q1" "s9" 9).citations = "") ∧
    (bodyHas titleBody "image_url" = false →
      (newSubtopicRow titleBody "q1" "s9" 9).image_url = "") ∧
    (bodyHas titleBody "figure_description" = false →
      (newSubtopicRow titleBody "q1" "s9" 9).figure_description = "") :=
  C7_add_subtopic_optional_defaults sampleDB "r1" "q1" "s9" titleBody 9
    (by decide) (by decide) (by decide)

/-- Claim C8: `get_lab_report` leaves the store unchanged, and a second
call with no intervening mutation returns the identical output
(document, status and store). -/
theorem C8_get_report_read_only (db : DB) (rid : String) :
    (get_lab_report db rid).db = db ∧
    get_lab_report (get_lab_report db rid).db rid = get_lab_report db rid := by
  have h : (get_lab_report db rid).db = db := by
    unfold get_lab_report
    split <;> rfl
  exact ⟨h, by rw [h]⟩

/-- The store after `update_lab_report` is either untouched or the
UPDATE applied to some body. -/
theorem update_lab_report_db_cases (db : DB) (rid : String) (b : Option Body) :
    (update_lab_report db rid b).db = db ∨
    ∃ d, (update_lab_report db rid b).db = applyReportUpdate db rid d := by
  unfold update_lab_report
  repeat' split
  all_goals first
  | (left; rfl)
  | (right; exact ⟨_, rfl⟩)

/-- The store after `update_question` is either untouched or the UPDATE
applied to some body. -/
theorem update_question_db_cases (db : DB) (rid qid : String) (b : Option Body) :
    (update_question db rid qid b).db = db ∨
    ∃ d, (update_question db rid qid b).db = applyQuestionUpdate db qid d := by
  unfold update_question
  repeat' split
  all_goals first
  | (left; rfl)
  | (right; exact ⟨_, rfl⟩)

/-- The store after `update_subtopic` is either untouched or the UPDATE
applied to some body. -/
theorem update_subtopic_db_cases (db : DB) (rid qid sid : String) (b : Option Body) :
    (update_subtopic db rid qid sid b).db = db ∨
    ∃ d, (update_subtopic db rid qid sid b).db = applySubtopicUpdate db sid d := by
  unfold update_subtopic
  repeat' split
  all_goals first
  | (left; rfl)
  | (right; exact ⟨_, rfl⟩)

/-- Claim C9: no update operation changes any row's id, parent
reference or created_at: `update_lab_report` touches only the
lab_reports table and preserves id/created_by/created_at of every row;
`update_question` touches only questions and preserves
id/lab_report_id/created_at; `update_subtopic` touches only subtopics
and preserves id/question_id/created_at. -/
theorem C9_updates_preserve_identifiers (db : DB) (rid qid sid : String) (b : Option Body) :
    ((update_lab_report db rid b).db.questions = db.questions ∧
     (update_lab_report db rid b).db.subtopics = db.subtopics ∧
     ∀ r' ∈ (update_lab_report db rid b).db.lab_reports, ∃ r ∈ db.lab_reports,
       r'.id = r.id ∧ r'.created_by = r.created_by ∧ r'.created_at = r.created_at) ∧
    ((update_question db rid qid b).db.lab_reports = db.lab_reports ∧
     (update_question db rid qid b).db.subtopics = db.subtopics ∧
     ∀ q' ∈ (update_question db rid qid b).db.questions, ∃ q ∈ db.questions,
       q'.id = q.id ∧ q'.lab_report_id = q.lab_report_id ∧ q'.created_at = q.created_at) ∧
    ((update_subtopic db rid qid sid b).db.lab_reports = db.lab_reports ∧
     (update_subtopic db rid qid sid b).db.questions = db.questions ∧
     ∀ s' ∈ (update_subtopic db rid qid sid b).db.subtopics, ∃ s ∈ db.subtopics,
       s'.id = s.id ∧ s'.question_id = s.question_id ∧ s'.created_at = s.created_at) := by
  refine ⟨?_, ?_, ?_⟩
  · rcases update_lab_report_db_cases db rid b with h | ⟨d, h⟩ <;> rw [h]
    · exact ⟨rfl, rfl, fun r' hr' => ⟨r', hr', rfl, rfl, rfl⟩⟩
    · refine ⟨rfl, rfl, ?_⟩
      intro r' hr'
      obtain ⟨r, hr, hmap⟩ := List.mem_map.mp hr'
      refine ⟨r, hr, ?_⟩
      rw [← hmap]
      by_cases hid : (r.id == rid) = true <;> simp [hid]
  · rcases update_question_db_cases db rid qid b with h | ⟨d, h⟩ <;> rw [h]
    · exact ⟨rfl, rfl, fun q' hq' => ⟨q', hq', rfl, rfl, rfl⟩⟩
    · refine ⟨rfl, rfl, ?_⟩
      intro q' hq'
      obtain ⟨q, hq, hmap⟩ := List.mem_map.mp hq'
      refine ⟨q, hq, ?_⟩
      rw [← hmap]
      by_cases hid : (q.id == qid) = true <;> simp [hid]
  · rcases update_subtopic_db_cases db rid qid sid b with h | ⟨d, h⟩ <;> rw [h]
    · exact ⟨rfl, rfl, fun s' hs' => ⟨s', hs', rfl, rfl, rfl⟩⟩
    · refine ⟨rfl, rfl, ?_⟩
      intro s' hs'
      obtain ⟨s, hs, hmap⟩ := List.mem_map.mp hs'
      refine ⟨s, hs, ?_⟩
      rw [← hmap]
      by_cases hid : (s.id == sid) = true <;> simp [hid]

/-- Claim C10: a valid `update_subtopic` call overwrites every optional
field; any of procedures, explanation, citations, image_url,
figure_description omitted from the body is set to the empty string in
the stored row, not left at its previous value. -/
theorem C10_update_subtopic_clears_omitted_fields
    (db : DB) (rid qid sid : String) (d : Body)
    (hok : subtopicAncestryOk db rid qid sid = true)
    (htitle : bodyHas d "title" = true) :
    (update_subtopic db rid qid sid (some d)).status = 200 ∧
    ∀ s' ∈ (update_subtopic db rid qid sid (some d)).db.subtopics, s'.id = sid →
      (bodyHas d "procedures" = false → s'.procedures = "") ∧
      (bodyHas d "explanation" = false → s'.explanation = "") ∧
      (bodyHas d "citations" = false → s'.citations = "") ∧
      (bodyHas d "image_url" = false → s'.image_url = "") ∧
      (bodyHas d "figure_description" = false → s'.figure_description = "") := by
  obtain ⟨s0, hs0, hrest⟩ := List.any_eq_true.mp hok
  obtain ⟨q0, hq0, hrest2⟩ := List.any_eq_true.mp hrest
  obtain ⟨r0, hr0, hconj⟩ := List.any_eq_true.mp hrest2
  rw [Bool.and_eq_true, Bool.and_eq_true, Bool.and_eq_true, Bool.and_eq_true] at hconj
  obtain ⟨⟨⟨⟨e1, e2⟩, e3⟩, e4⟩, e5⟩ := hconj
  rw [beq_iff_eq] at e3
  have hmem : (fun s : SubtopicRow => if s.id == sid then
        { s with
          title := bodyGetD d "title" ""
          procedures := bodyGetD d "procedures" ""
          explanation := bodyGetD d "explanation" ""
          citations := bodyGetD d "citations" ""
          image_url := bodyGetD d "image_url" ""
          figure_description := bodyGetD d "figure_description" "" }
      else s) s0 ∈ (applySubtopicUpdate db sid d).subtopics :=
    List.mem_map_of_mem _ hs0
  have hfound : ((applySubtopicUpdate db sid d).subtopics.find?
      (fun s => s.id == sid)).isSome = true := by
    rw [List.find?_isSome]
    refine ⟨_, hmem, ?_⟩
    simp [e3]
  obtain ⟨sfound, hsfound⟩ := Option.isSome_iff_exists.mp hfound
  have hupd : update_subtopic db rid qid sid (some d) =
      { status := 200, db := applySubtopicUpdate db sid d,
        subtopicRow := some sfound,
        events := [{ name := "subtopic_updated", room := rid }] } := by
    simp [update_subtopic, hok, htitle, hsfound]
  refine ⟨by rw [hupd], ?_⟩
  intro s' hs' hsid
  rw [hupd] at hs'
  obtain ⟨s1, hs1, hmap⟩ := List.mem_map.mp hs'
  by_cases hid : (s1.id == sid) = true
  · rw [hid] at hmap
    rw [if_pos rfl] at hmap
    rw [← hmap]
    exact ⟨fun h => bodyGetD_of_not_has d "procedures" "" h,
      fun h => bodyGetD_of_not_has d "explanation" "" h,
      fun h => bodyGetD_of_not_has d "citations" "" h,
      fun h => bodyGetD_of_not_has d "image_url" "" h,
      fun h => bodyGetD_of_not_has d "figure_description" "" h⟩
  · rw [Bool.not_eq_true] at hid
    rw [hid] at hmap
    rw [if_neg (by simp)] at hmap
    rw [← hmap] at hsid
    rw [hsid] at hid
    simp at hid

/-- Witness for C10: `s1` had procedures "P" and explanation "E"; after
an update naming only `title`, the stored row's optional fields are
empty. -/
theorem C10_update_subtopic_clears_omitted_fields_witness :
    (update_subtopic sampleDB "r1" "q1" "s1" (some titleBody)).status = 200 ∧
    ∀ s' ∈ (update_subtopic sampleDB "r1" "q1" "s1" (some titleBody)).db.subtopics,
      s'.id = "s1" →
      (bodyHas titleBody "procedures" = false → s'.procedures = "") ∧
      (bodyHas titleBody "explanation" = false → s'.explanation = "") ∧
      (bodyHas titleBody "citations" = false → s'.citations = "") ∧
      (bodyHas titleBody "image_url" = false → s'.image_url = "") ∧
      (bodyHas titleBody "figure_description" = false → s'.figure_description = "") :=
  C10_update_subtopic_clears_omitted_fields sampleDB "r1" "q1" "s1" titleBody
    (by decide) (by decide)

end LabFormatter
